import Mathlib

/-!
Shallow embedding of the restaurant order system (src/app.py, src/database.py).

The Flask/SQLAlchemy state is made explicit: the orders table is a `Store`
value threaded through the handlers, `datetime.utcnow()` is a `DateTime`
parameter, and the Socket.IO emission outcome is a boolean parameter
(`emitOk`) standing for whether `socketio.emit` raises.  Python float
arithmetic is idealised as exact rational arithmetic over `Q`, a
normalised numerator/denominator pair (every operation reduces by the gcd,
so equal values have equal representations); `round(x, 2)` is modelled as
exact half-even rounding of the rational value.  Stored line-item JSON text
is modelled by `ItemsJson`: either a parsed list of line items or a
malformed payload (the `json.loads` failure case).
-/

namespace RestaurantOrders

/-- Exact rational numbers with a canonical (reduced, positive-denominator)
representation, standing in for the numeric values of Python. -/
structure Q where
  num : Int
  den : Nat
deriving DecidableEq, Repr

/-- Build the canonical representative of `n / d`. -/
def Q.norm (n : Int) (d : Nat) : Q :=
  let g := n.natAbs.gcd d
  if g = 0 then ⟨0, 1⟩ else ⟨n / (g : Int), d / g⟩

def Q.add (a b : Q) : Q :=
  Q.norm (a.num * (b.den : Int) + b.num * (a.den : Int)) (a.den * b.den)

def Q.sub (a b : Q) : Q :=
  Q.norm (a.num * (b.den : Int) - b.num * (a.den : Int)) (a.den * b.den)

def Q.mul (a b : Q) : Q :=
  Q.norm (a.num * b.num) (a.den * b.den)

/-- Strict comparison by cross-multiplication (denominators are positive on
every value the embedding builds). -/
def Q.ltb (a b : Q) : Bool :=
  a.num * (b.den : Int) < b.num * (a.den : Int)

instance : OfNat Q n := ⟨⟨(n : Int), 1⟩⟩

instance : Neg Q := ⟨fun a => ⟨-a.num, a.den⟩⟩

instance : Add Q := ⟨Q.add⟩

instance : Sub Q := ⟨Q.sub⟩

instance : Mul Q := ⟨Q.mul⟩

/-- Python `sum(...)`: a left fold starting from the integer `0`. -/
def pySum (l : List Q) : Q := l.foldl Q.add 0

/-- `math.floor` of a rational: floor division of numerator by denominator. -/
def Q.floorInt (a : Q) : Int := a.num.fdiv (a.den : Int)

/-- Python `round` to an integer: half-to-even (idealised to exact rational
arithmetic; the float representation error of the source is not modelled). -/
def pyRoundInt (x : Q) : Int :=
  let f := x.floorInt
  let r := x - ⟨f, 1⟩
  if r.ltb ⟨1, 2⟩ then f
  else if (⟨1, 2⟩ : Q).ltb r then f + 1
  else if f % 2 = 0 then f else f + 1

/-- Python `round(x, 2)`. -/
def round2 (x : Q) : Q := Q.norm (pyRoundInt (x * 100)) 100

/-- Multiplying by the zero value gives the canonical zero. -/
theorem Q.zero_mul (x : Q) : (0 : Q) * x = 0 := by
  show Q.mul ⟨0, 1⟩ x = ⟨0, 1⟩
  unfold Q.mul Q.norm
  by_cases hd : x.den = 0
  · simp [hd]
  · simp [hd, Nat.div_self (Nat.pos_of_ne_zero hd)]

/-- Mirror of the fields of a Python `datetime` used by the code
(microseconds included, since the code zeroes them with `replace`). -/
structure DateTime where
  year : Nat
  month : Nat
  day : Nat
  hour : Nat
  minute : Nat
  second : Nat
  usec : Nat
deriving DecidableEq, Repr

/-- Lexicographic strict comparison of datetimes, as Python compares them. -/
def DateTime.ltb (a b : DateTime) : Bool :=
  if a.year ≠ b.year then decide (a.year < b.year)
  else if a.month ≠ b.month then decide (a.month < b.month)
  else if a.day ≠ b.day then decide (a.day < b.day)
  else if a.hour ≠ b.hour then decide (a.hour < b.hour)
  else if a.minute ≠ b.minute then decide (a.minute < b.minute)
  else if a.second ≠ b.second then decide (a.second < b.second)
  else decide (a.usec < b.usec)

/-- Lexicographic non-strict comparison of datetimes. -/
def DateTime.leb (a b : DateTime) : Bool := !(DateTime.ltb b a)

/-- `datetime.replace(hour=0, minute=0, second=0, microsecond=0)`. -/
def startOfDay (t : DateTime) : DateTime :=
  { t with hour := 0, minute := 0, second := 0, usec := 0 }

/-- Gregorian leap years, as implemented by the Python `datetime` module. -/
def isLeap (y : Nat) : Bool := (y % 4 = 0 && y % 100 ≠ 0) || y % 400 = 0

/-- Number of days of month `m` of year `y`. -/
def daysInMonth (y m : Nat) : Nat :=
  if m = 2 then (if isLeap y then 29 else 28)
  else if m = 4 || m = 6 || m = 9 || m = 11 then 30
  else 31

/-- Calendar predecessor of a (year, month, day) date. -/
def prevDayDate : Nat × Nat × Nat → Nat × Nat × Nat
  | (y, m, d) =>
    if d > 1 then (y, m, d - 1)
    else if m > 1 then (y, m - 1, daysInMonth y (m - 1))
    else (y - 1, 12, 31)

/-- Calendar successor of a (year, month, day) date. -/
def nextDayDate : Nat × Nat × Nat → Nat × Nat × Nat
  | (y, m, d) =>
    if d < daysInMonth y m then (y, m, d + 1)
    else if m < 12 then (y, m + 1, 1)
    else (y + 1, 1, 1)

/-- `t - timedelta(days=n)`: the time of day is preserved. -/
def subDays (t : DateTime) : Nat → DateTime
  | 0 => t
  | n + 1 =>
    let s := subDays t n
    let p := prevDayDate (s.year, s.month, s.day)
    { s with year := p.1, month := p.2.1, day := p.2.2 }

/-- `date + timedelta(days=n)` on the date component. -/
def addDaysDate (ymd : Nat × Nat × Nat) : Nat → Nat × Nat × Nat
  | 0 => ymd
  | n + 1 => nextDayDate (addDaysDate ymd n)

def isDigit (c : Char) : Bool := '0' ≤ c && c ≤ '9'

def digitVal (c : Char) : Nat := c.toNat - '0'.toNat

/-- Month component of `strptime(_, "%Y-%m-%d")`: the CPython pattern
`1[0-2]|0[1-9]|[1-9]`, two digits preferred (no cross-group backtracking can
rescue a failed two-digit match here, so the greedy choice is exact). -/
def parseMonth : List Char → Option (Nat × List Char)
  | c1 :: c2 :: rest =>
    if c1 = '1' && ('0' ≤ c2 && c2 ≤ '2') then some (10 + digitVal c2, rest)
    else if c1 = '0' && ('1' ≤ c2 && c2 ≤ '9') then some (digitVal c2, rest)
    else if '1' ≤ c1 && c1 ≤ '9' then some (digitVal c1, c2 :: rest)
    else none
  | [c1] => if '1' ≤ c1 && c1 ≤ '9' then some (digitVal c1, []) else none
  | [] => none

/-- Day component of `strptime(_, "%Y-%m-%d")`: the CPython pattern
`3[01]|[12]\d|0[1-9]|[1-9]`. -/
def parseDay : List Char → Option (Nat × List Char)
  | c1 :: c2 :: rest =>
    if c1 = '3' && (c2 = '0' || c2 = '1') then some (30 + digitVal c2, rest)
    else if (c1 = '1' || c1 = '2') && isDigit c2 then
      some (10 * digitVal c1 + digitVal c2, rest)
    else if c1 = '0' && ('1' ≤ c2 && c2 ≤ '9') then some (digitVal c2, rest)
    else if '1' ≤ c1 && c1 ≤ '9' then some (digitVal c1, c2 :: rest)
    else none
  | [c1] => if '1' ≤ c1 && c1 ≤ '9' then some (digitVal c1, []) else none
  | [] => none

/-- `datetime.strptime(s, "%Y-%m-%d")`: four year digits, dash, month, dash,
day, whole string consumed, then the range check of the `datetime` constructor
(year at least 1, day within the month). `none` models the `ValueError`. -/
def parseYMD (s : String) : Option (Nat × Nat × Nat) :=
  match s.toList with
  | y1 :: y2 :: y3 :: y4 :: '-' :: rest =>
    if isDigit y1 && isDigit y2 && isDigit y3 && isDigit y4 then
      let y := 1000 * digitVal y1 + 100 * digitVal y2 + 10 * digitVal y3 + digitVal y4
      match parseMonth rest with
      | some (m, '-' :: rest2) =>
        match parseDay rest2 with
        | some (d, []) =>
          if 1 ≤ y && d ≤ daysInMonth y m then some (y, m, d) else none
        | _ => none
      | _ => none
    else none
  | _ => none

def pad2 (n : Nat) : String := if n < 10 then "0" ++ toString n else toString n

def pad4 (n : Nat) : String :=
  if n < 10 then "000" ++ toString n
  else if n < 100 then "00" ++ toString n
  else if n < 1000 then "0" ++ toString n
  else toString n

/-- `strftime("%Y-%m-%d")`. -/
def fmtYMD (t : DateTime) : String :=
  pad4 t.year ++ "-" ++ pad2 t.month ++ "-" ++ pad2 t.day

/-- `strftime("%Y%m%d%H%M%S")`, the order-number format of `manage_orders`. -/
def fmtOrderNumber (t : DateTime) : String :=
  pad4 t.year ++ pad2 t.month ++ pad2 t.day ++
    pad2 t.hour ++ pad2 t.minute ++ pad2 t.second

/-- A JSON scalar as it can appear in the `quantity` or `price`
field of a line item: a number, or a non-numeric value (string or null), which fails the
`isinstance(_, (int, float))` check of the aggregator. -/
inductive JVal where
  | num (q : Q)
  | str (s : String)
  | null
deriving DecidableEq, Repr

def JVal.isNum : JVal → Bool
  | .num _ => true
  | _ => false

def JVal.numVal : JVal → Q
  | .num q => q
  | _ => 0

/-- A line-item JSON object; each field is absent (`none`) or present.
Only these four keys are ever read by the code (`item.get`/`item[...]`). -/
structure LineItem where
  name : Option String
  category : Option String
  price : Option JVal
  quantity : Option JVal
deriving DecidableEq, Repr

/-- The stored `orders.items` text column: either text that `json.loads`
parses into a list of line items, or malformed text raising
`json.JSONDecodeError` with the given message. -/
inductive ItemsJson where
  | ok (items : List LineItem)
  | malformed (msg : String)
deriving DecidableEq, Repr

def ItemsJson.isMalformed : ItemsJson → Bool
  | .ok _ => false
  | .malformed _ => true

/-- A row of the `orders` table (the `Order` model of database.py). -/
structure StoredOrder where
  id : Nat
  order_number : String
  items : ItemsJson
  total_amount : Q
  status : String
  notes : String
  created_at : DateTime
  updated_at : DateTime
deriving DecidableEq, Repr

/-- The committed database state: the orders table and the next
autoincrement id. -/
structure Store where
  orders : List StoredOrder
  nextId : Nat
deriving DecidableEq, Repr

def isCompleted (o : StoredOrder) : Bool := o.status == "completed"

/-- Per-(name, category) accumulator of the aggregation loop. -/
structure GroupStats where
  quantity : Q
  total_price : Q
deriving DecidableEq, Repr

/-- `item_stats`: a Python dict keyed by `(name, category)`, modelled as an
insertion-ordered association list. -/
abbrev Stats := List ((String × String) × GroupStats)

/-- `if key not in item_stats: item_stats[key] = {"quantity": 0, "total_price": 0.0}`. -/
def statsInsertIfAbsent (stats : Stats) (k : String × String) : Stats :=
  if (stats.find? (fun e => e.1 == k)).isSome then stats
  else stats ++ [(k, ⟨0, 0⟩)]

/-- In-place accumulation into an existing key of `item_stats`. -/
def statsAdd (stats : Stats) (k : String × String) (q p : Q) : Stats :=
  stats.map (fun e =>
    if e.1 == k then (e.1, ⟨e.2.quantity + q, e.2.total_price + p⟩) else e)

/-- One iteration of the inner `for item in items` loop of
`get_sales_analytics`: defaults via `.get`, category filter, key insertion
before the numeric check, then accumulation. -/
def processItem (category_filter : String) (stats : Stats) (item : LineItem) : Stats :=
  let name := item.name.getD "未知"
  let category := item.category.getD "unknown"
  if category_filter ≠ "all" && category ≠ category_filter then stats
  else
    let stats1 := statsInsertIfAbsent stats (name, category)
    let quantity := item.quantity.getD (JVal.num 1)
    let price := item.price.getD (JVal.num 0)
    if !quantity.isNum || !price.isNum then stats1
    else statsAdd stats1 (name, category) quantity.numVal (price.numVal * quantity.numVal)

/-- The outer `for order in completed_orders` loop: `json.loads` of a
malformed payload raises `JSONDecodeError`, aborting the whole computation
(there is no per-order handler in the source). -/
def aggregateItems (category_filter : String) : List StoredOrder → Stats → Except String Stats
  | [], stats => .ok stats
  | o :: rest, stats =>
    match o.items with
    | .malformed msg => .error msg
    | .ok lis =>
        aggregateItems category_filter rest (lis.foldl (processItem category_filter) stats)

/-- A row of the `items` list of the analytics response. -/
structure ItemRow where
  name : String
  category : String
  quantity : Q
  total_price : Q
  date : String
deriving DecidableEq, Repr

/-- The dict returned by `get_sales_analytics`: either the three data keys,
or an `error` key (with an optional `details` key). -/
inductive AnalyticsDict where
  | ok (total_orders : Nat) (total_revenue : Q) (items : List ItemRow)
  | error (msg : String) (details : Option String)
deriving DecidableEq, Repr

/-- Resolution of the `date_filter` branch ladder of `get_sales_analytics`
to a half-open window `[start, end)`; `none` in the second component means
no upper bound (the `today` and `last_7_days` queries have none). The outer
`none` models the `ValueError` branch. -/
def resolveWindow (current : DateTime) (date_filter : String) :
    Option (DateTime × Option DateTime) :=
  if date_filter = "today" then some (startOfDay current, none)
  else if date_filter = "yesterday" then
    some (startOfDay (subDays current 1), some (startOfDay current))
  else if date_filter = "last_7_days" then some (subDays current 7, none)
  else
    match parseYMD date_filter with
    | some (y, m, d) =>
      let nd := addDaysDate (y, m, d) 1
      some (⟨y, m, d, 0, 0, 0, 0⟩, some ⟨nd.1, nd.2.1, nd.2.2, 0, 0, 0, 0⟩)
    | none => none

/-- The SQL filter on `Order.created_at` of the resolved window. -/
def inWindow (w : DateTime × Option DateTime) (o : StoredOrder) : Bool :=
  DateTime.leb w.1 o.created_at &&
    match w.2 with
    | none => true
    | some e => DateTime.ltb o.created_at e

/-- database.py `get_sales_analytics(date_filter, category_filter)`, with
the current instant and the orders table made explicit parameters. -/
def get_sales_analytics (current : DateTime) (allOrders : List StoredOrder)
    (date_filter category_filter : String) : AnalyticsDict :=
  match resolveWindow current date_filter with
  | none => .error "無效的日期格式，應為 YYYY-MM-DD" none
  | some w =>
    let orders := allOrders.filter (inWindow w)
    if orders.isEmpty then .ok 0 0 []
    else
      let completed_orders := orders.filter isCompleted
      let total_orders := completed_orders.length
      let total_revenue := pySum (completed_orders.map StoredOrder.total_amount)
      match aggregateItems category_filter completed_orders [] with
      | .error msg => .error ("JSON 解析錯誤: " ++ msg) (some msg)
      | .ok stats =>
        .ok total_orders (round2 total_revenue)
          (stats.map (fun e =>
            { name := e.1.1, category := e.1.2, quantity := e.2.quantity,
              total_price := round2 e.2.total_price, date := fmtYMD w.1 }))

/-- app.py `get_analytics` endpoint check
`not analytics_data.get("total_orders") and not analytics_data.get("items")`:
on an error dict both `.get` calls yield `None`, which is falsy. -/
def analyticsEmptyish : AnalyticsDict → Bool
  | .ok t _ items => t == 0 && items.isEmpty
  | .error _ _ => true

/-- app.py `/api/analytics` endpoint: HTTP status code and JSON body. -/
def get_analytics (current : DateTime) (allOrders : List StoredOrder)
    (date_filter category_filter : String) : Nat × AnalyticsDict :=
  let analytics_data := get_sales_analytics current allOrders date_filter category_filter
  if analyticsEmptyish analytics_data then (200, .ok 0 0 [])
  else (200, analytics_data)

/-- The JSON body of a `POST /api/orders` request: the optional `items` and
`notes` keys. Other keys are never read. -/
structure CreatePayload where
  items : Option (List LineItem)
  notes : Option String
deriving DecidableEq, Repr

/-- `item["price"] * item["quantity"]` for one request item: a missing key
raises `KeyError`; a non-numeric value makes the surrounding `sum` raise.
Either exception lands in the `except` block of the handler. -/
def itemAmount (it : LineItem) : Except String Q :=
  match it.price with
  | none => .error "KeyError: price"
  | some (JVal.num p) =>
    match it.quantity with
    | none => .error "KeyError: quantity"
    | some (JVal.num q) => .ok (p * q)
    | some _ => .error "TypeError"
  | some _ => .error "TypeError"

/-- `sum(item["price"] * item["quantity"] for item in data["items"])`:
a left fold from `0`, aborting at the first item whose product raises. -/
def totalAmountAux (acc : Q) : List LineItem → Except String Q
  | [] => .ok acc
  | it :: rest =>
    match itemAmount it with
    | .error e => .error e
    | .ok a => totalAmountAux (acc + a) rest

def totalAmount (items : List LineItem) : Except String Q := totalAmountAux 0 items

/-- Responses of `POST /api/orders` (`manage_orders`). -/
inductive CreateResp where
  | created (order : StoredOrder)
  | emptyErr
  | failErr
deriving DecidableEq, Repr

/-- app.py `manage_orders` POST branch. `emitOk` is whether `socketio.emit`
runs without raising; the emission happens after `db.session.commit()`, so
a raising emit is caught by the `except` block whose `rollback()` can no
longer undo the committed insert. The commit enforces the
`unique=True` constraint on `order_number` (IntegrityError on duplicate). -/
def create_order (store : Store) (now : DateTime) (emitOk : Bool)
    (data : Option CreatePayload) : Store × CreateResp :=
  match data with
  | none => (store, .emptyErr)
  | some payload =>
    match payload.items with
    | none => (store, .emptyErr)
    | some [] => (store, .emptyErr)
    | some items =>
      let order_number := fmtOrderNumber now
      match totalAmount items with
      | .error _ => (store, .failErr)
      | .ok total =>
        if store.orders.any (fun x => x.order_number == order_number) then
          (store, .failErr)
        else
          let o : StoredOrder :=
            { id := store.nextId, order_number := order_number,
              items := .ok items, total_amount := total, status := "pending",
              notes := payload.notes.getD "", created_at := now, updated_at := now }
          let store1 : Store := { orders := store.orders ++ [o], nextId := store.nextId + 1 }
          if emitOk then (store1, .created o) else (store1, .failErr)

/-- Responses of `PUT /api/orders/<id>/status`. -/
inductive UpdateResp where
  | ok (order : StoredOrder)
  | noStatus
  | failErr
deriving DecidableEq, Repr

/-- app.py `update_order_status`. The request body is `none` when there is
no JSON (then `data.get` raises `AttributeError`, caught as a 500), else the
optional `status` key. `Order.query.get_or_404` on an absent id raises
the werkzeug `NotFound`, an `Exception` subclass, so the blanket
`except Exception` catches it and answers with the generic 500 error. -/
def update_order_status (store : Store) (now : DateTime) (emitOk : Bool)
    (order_id : Nat) (data : Option (Option String)) : Store × UpdateResp :=
  match data with
  | none => (store, .failErr)
  | some statusOpt =>
    match statusOpt with
    | none => (store, .noStatus)
    | some new_status =>
      if new_status = "" then (store, .noStatus)
      else
        match store.orders.find? (fun x => x.id == order_id) with
        | none => (store, .failErr)
        | some o =>
          let o1 := { o with status := new_status, updated_at := now }
          let store1 : Store :=
            { store with orders := store.orders.map (fun x => if x.id == order_id then o1 else x) }
          if emitOk then (store1, .ok o1) else (store1, .failErr)

/-- Responses of `DELETE /api/orders/<id>`. -/
inductive DeleteResp where
  | ok
  | failErr
deriving DecidableEq, Repr

/-- app.py `delete_order`: the same swallowed `NotFound` on an absent id;
on a present id the row is deleted and committed before the emission. -/
def delete_order (store : Store) (emitOk : Bool) (order_id : Nat) :
    Store × DeleteResp :=
  match store.orders.find? (fun x => x.id == order_id) with
  | none => (store, .failErr)
  | some _ =>
    let store1 : Store :=
      { store with orders := store.orders.filter (fun x => !(x.id == order_id)) }
    if emitOk then (store1, .ok) else (store1, .failErr)

/-! ## Helper lemmas -/

instance {ε α : Type} [DecidableEq ε] [DecidableEq α] : DecidableEq (Except ε α) :=
  fun a b =>
    match a, b with
    | .error x, .error y =>
      if h : x = y then .isTrue (by rw [h]) else .isFalse (by simp [h])
    | .ok x, .ok y =>
      if h : x = y then .isTrue (by rw [h]) else .isFalse (by simp [h])
    | .error _, .ok _ => .isFalse (by simp)
    | .ok _, .error _ => .isFalse (by simp)

/-- If some order of the list has malformed stored line-item JSON, the
aggregation loop raises instead of producing statistics. -/
theorem aggregateItems_error_of_malformed (cf : String) (L : List StoredOrder) :
    ∀ (s : Stats), (∃ o ∈ L, o.items.isMalformed = true) →
    ∃ m, aggregateItems cf L s = .error m := by
  induction L with
  | nil => intro s h; simp at h
  | cons o rest ih =>
    intro s h
    cases hoi : o.items with
    | malformed m => exact ⟨m, by simp [aggregateItems, hoi]⟩
    | ok lis =>
      rcases h with ⟨o1, ho1, hm⟩
      rcases List.mem_cons.mp ho1 with h1 | hmem
      · subst h1; rw [hoi] at hm; simp [ItemsJson.isMalformed] at hm
      · rcases ih (lis.foldl (processItem cf) s) ⟨o1, hmem, hm⟩ with ⟨m, hm2⟩
        exact ⟨m, by simp [aggregateItems, hoi, hm2]⟩

/-- Deleting every order with a given id makes a later lookup of that id
come up empty. -/
theorem find?_filter_ne (orders : List StoredOrder) (oid : Nat) :
    (orders.filter (fun x => !(x.id == oid))).find? (fun x => x.id == oid) = none := by
  rw [List.find?_eq_none]
  intro x hx
  have h2 := (List.mem_filter.mp hx).2
  simp at h2 ⊢
  exact h2

/-- The request items built from a list of (price, quantity) pairs. -/
def mkNumItems : List (Q × Q) → List LineItem
  | [] => []
  | pq :: rest => ⟨none, none, some (.num pq.1), some (.num pq.2)⟩ :: mkNumItems rest

/-- On all-numeric request items the sum in the handler succeeds and computes
the left-fold of the price × quantity products. -/
theorem totalAmountAux_mkNumItems (l : List (Q × Q)) (acc : Q) :
    totalAmountAux acc (mkNumItems l) =
      .ok (l.foldl (fun a pq => a + pq.1 * pq.2) acc) := by
  induction l generalizing acc with
  | nil => rfl
  | cons pq rest ih =>
    simp only [mkNumItems, totalAmountAux, itemAmount, List.foldl_cons]
    exact ih (acc + pq.1 * pq.2)

/-! ## Concrete fixtures used by the theorems -/

/-- A reference instant: 2025-01-10 12:00:00 UTC. -/
def T0 : DateTime := ⟨2025, 1, 10, 12, 0, 0, 0⟩

/-- A pending order worth 100, created today (relative to `T0`). -/
def oPending : StoredOrder :=
  { id := 1, order_number := "20250110090000",
    items := .ok [⟨some "滷肉飯", some "main", some (.num 100), some (.num 1)⟩],
    total_amount := 100, status := "pending", notes := "",
    created_at := ⟨2025, 1, 10, 9, 0, 0, 0⟩, updated_at := ⟨2025, 1, 10, 9, 0, 0, 0⟩ }

/-- A completed order worth 50, created today (relative to `T0`). -/
def oCompleted : StoredOrder :=
  { id := 2, order_number := "20250110100000",
    items := .ok [⟨some "牛肉麵", some "main", some (.num 50), some (.num 1)⟩],
    total_amount := 50, status := "completed", notes := "",
    created_at := ⟨2025, 1, 10, 10, 0, 0, 0⟩, updated_at := ⟨2025, 1, 10, 10, 0, 0, 0⟩ }

/-- A completed order dated today whose stored line-item text is malformed
JSON (`json.loads` raises on it). -/
def oMalformed : StoredOrder :=
  { id := 3, order_number := "20250110110000",
    items := .malformed "Expecting value: line 1 column 1 (char 0)",
    total_amount := 80, status := "completed", notes := "",
    created_at := ⟨2025, 1, 10, 11, 0, 0, 0⟩, updated_at := ⟨2025, 1, 10, 11, 0, 0, 0⟩ }

/-- A valid creation request: one item, price 50, quantity 2. -/
def goodData : CreatePayload :=
  { items := some [⟨some "牛肉麵", some "main", some (.num 50), some (.num 2)⟩], notes := none }

/-- The order `create_order ⟨[], 1⟩ T0 _ (some goodData)` commits. -/
def oNew : StoredOrder :=
  { id := 1, order_number := "20250110120000",
    items := .ok [⟨some "牛肉麵", some "main", some (.num 50), some (.num 2)⟩],
    total_amount := 100, status := "pending", notes := "",
    created_at := T0, updated_at := T0 }

/-! ## Claims -/

/-- C1. The spec claims an invalid date filter always yields a
`ValidationError` at the exposed analytics operation and never the
empty-success response.  The aggregation function does return the
validation-error dict, but the endpoint emptiness check
(`not analytics_data.get("total_orders") and not analytics_data.get("items")`)
is also true of that error dict, so the endpoint masks it as
`{"total_orders": 0, "total_revenue": 0.00, "items": []}` with HTTP 200 —
exactly the forbidden empty-success response.  The same store queried with
a valid filter returns real data, so the empty response is the masked
error, not absent data. -/
theorem C1_invalid_date_masked_as_empty_success :
    get_sales_analytics T0 [oPending, oCompleted] "not-a-date" "all" =
      .error "無效的日期格式，應為 YYYY-MM-DD" none ∧
    get_analytics T0 [oPending, oCompleted] "not-a-date" "all" = (200, .ok 0 0 []) ∧
    get_analytics T0 [oPending, oCompleted] "today" "all" =
      (200, .ok 1 50 [⟨"牛肉麵", "main", 1, 50, "2025-01-10"⟩]) := by
  refine ⟨by decide, by decide, by decide⟩

/-- C9. A line item whose `quantity` (or `price`) is not a number still
inserts its `(name, category)` key into `item_stats` before the
`isinstance` check skips the accumulation; consequently a group whose every
line item is non-numeric appears in the result with quantity 0 and
total_price 0.0 instead of being excluded. -/
theorem C9_nonnumeric_item_still_inserts_group :
    (∀ (stats : Stats) (n c s : String) (p : Option JVal),
      processItem "all" stats ⟨some n, some c, p, some (.str s)⟩ =
        statsInsertIfAbsent stats (n, c)) ∧
    (∀ (stats : Stats) (n c s : String) (q : Option JVal),
      processItem "all" stats ⟨some n, some c, some (.str s), q⟩ =
        statsInsertIfAbsent stats (n, c)) ∧
    get_sales_analytics T0
      [{ oCompleted with
          items := .ok [⟨some "可樂", some "drink", some (.num 30), some (.str "two")⟩,
                        ⟨some "可樂", some "drink", some (.str "thirty"), some (.num 2)⟩] }]
      "today" "all" =
      .ok 1 50 [⟨"可樂", "drink", 0, 0, "2025-01-10"⟩] := by
  refine ⟨?_, ?_, by decide⟩
  · intro stats n c s p
    simp only [processItem, Option.getD_some, JVal.isNum, Bool.not_true, Bool.not_false,
      Bool.true_or, Bool.or_true, Bool.false_or]
    simp
  · intro stats n c s q
    simp only [processItem, Option.getD_some, JVal.isNum]
    cases q with
    | none => simp [JVal.isNum]
    | some v => cases v <;> simp [JVal.isNum]

/-- C10. A line item with missing fields is aggregated with the `.get`
defaults of the source: missing `name` becomes `未知`, missing `category`
becomes `unknown`, missing `quantity` counts as 1, and missing `price`
counts as 0.0, so it adds nothing to the total_price of the group. -/
theorem C10_missing_fields_aggregated_with_defaults :
    (∀ (stats : Stats) (p q : Q),
      processItem "all" stats ⟨none, none, some (.num p), some (.num q)⟩ =
        statsAdd (statsInsertIfAbsent stats ("未知", "unknown")) ("未知", "unknown") q (p * q)) ∧
    (∀ (stats : Stats) (n c : String) (p : Q),
      processItem "all" stats ⟨some n, some c, some (.num p), none⟩ =
        statsAdd (statsInsertIfAbsent stats (n, c)) (n, c) 1 (p * 1)) ∧
    (∀ (stats : Stats) (n c : String) (q : Q),
      processItem "all" stats ⟨some n, some c, none, some (.num q)⟩ =
        statsAdd (statsInsertIfAbsent stats (n, c)) (n, c) q 0) ∧
    get_sales_analytics T0 [{ oCompleted with items := .ok [⟨none, none, none, none⟩] }]
      "today" "all" =
      .ok 1 50 [⟨"未知", "unknown", 1, 0, "2025-01-10"⟩] := by
  refine ⟨?_, ?_, ?_, by decide⟩
  · intro stats p q
    simp [processItem, JVal.isNum, JVal.numVal]
  · intro stats n c p
    simp [processItem, JVal.isNum, JVal.numVal]
  · intro stats n c q
    simp [processItem, JVal.isNum, JVal.numVal, Q.zero_mul]

/-- A line item with a negative unit price (a discount-style entry). -/
def negItem : LineItem := ⟨some "折扣", some "promo", some (.num (-5)), some (.num 2)⟩

/-- The order committed for `negItem` at `T0` on an empty store. -/
def oNeg : StoredOrder :=
  { id := 1, order_number := "20250110120000", items := .ok [negItem],
    total_amount := -10, status := "pending", notes := "",
    created_at := T0, updated_at := T0 }

/-- The store after one successful creation at `T0` on an empty store. -/
def S1 : Store := ⟨[oNew], 2⟩

/-- C7, counterexample. The claim says CreateOrder fails with
`ValidationError` whenever a line item lacks a positive `unit_price` and
`quantity`.  The handler never checks positivity: an item priced −5 with
quantity 2 is accepted, committed, and answered with 201, with
`total_amount = −10`. -/
theorem C7_counterexample :
    create_order ⟨[], 1⟩ T0 true (some ⟨some [negItem], none⟩) = (⟨[oNeg], 2⟩, .created oNeg) ∧
    oNeg.total_amount = -10 := by
  refine ⟨by decide, by decide⟩

/-- C7, amended. CreateOrder answers the 400 validation error
(`訂單內容為空`) exactly when the body or its `items` key is missing or the
item list is empty, persisting nothing; an item missing its `price` key
raises `KeyError`, caught as the generic 500 error, persisting nothing;
positivity of price and quantity is not enforced — the negative-price item
is accepted and persisted. -/
theorem C7_amended :
    (∀ (store : Store) (now : DateTime) (emitOk : Bool),
      create_order store now emitOk none = (store, .emptyErr)) ∧
    (∀ (store : Store) (now : DateTime) (emitOk : Bool) (notes : Option String),
      create_order store now emitOk (some ⟨none, notes⟩) = (store, .emptyErr)) ∧
    (∀ (store : Store) (now : DateTime) (emitOk : Bool) (notes : Option String),
      create_order store now emitOk (some ⟨some [], notes⟩) = (store, .emptyErr)) ∧
    (∀ (store : Store) (now : DateTime) (emitOk : Bool) (notes : Option String)
        (n c : Option String) (q : Option JVal) (rest : List LineItem),
      create_order store now emitOk (some ⟨some (⟨n, c, none, q⟩ :: rest), notes⟩) =
        (store, .failErr)) ∧
    (create_order ⟨[], 1⟩ T0 true (some ⟨some [negItem], none⟩)).2 = .created oNeg := by
  refine ⟨fun _ _ _ => rfl, fun _ _ _ _ => rfl, fun _ _ _ _ => rfl, ?_, by decide⟩
  intro store now emitOk notes n c q rest
  rfl

/-- C8, counterexample. The claim says two orders created within the same
second may be persisted with the same `order_number`.  The `orders` table
declares `order_number` unique, so the second same-second creation hits an
`IntegrityError` at commit, is rolled back, and answers the generic 500
error: the duplicate is never persisted. -/
theorem C8_counterexample :
    create_order ⟨[], 1⟩ T0 true (some goodData) = (S1, .created oNew) ∧
    oNew.order_number = "20250110120000" ∧
    create_order S1 T0 true (some goodData) = (S1, .failErr) := by
  refine ⟨by decide, by decide, by decide⟩

/-- C8, amended. Every successfully created order carries
`order_number = strftime("%Y%m%d%H%M%S")` of its creation instant; but when
the store already holds an order with that number, the same-second creation
fails (unique constraint) and persists nothing, instead of storing a
duplicate. -/
theorem C8_amended :
    (∀ (store : Store) (now : DateTime) (emitOk : Bool) (data : Option CreatePayload)
        (store1 : Store) (o : StoredOrder),
      create_order store now emitOk data = (store1, .created o) →
      o.order_number = fmtOrderNumber now) ∧
    (∀ (store : Store) (now : DateTime) (emitOk : Bool) (notes : Option String)
        (it : LineItem) (rest : List LineItem),
      store.orders.any (fun x => x.order_number == fmtOrderNumber now) = true →
      create_order store now emitOk (some ⟨some (it :: rest), notes⟩) = (store, .failErr)) ∧
    fmtOrderNumber ⟨2025, 1, 10, 23, 0, 0, 0⟩ = "20250110230000" := by
  refine ⟨?_, ?_, by decide⟩
  · intro store now emitOk data store1 o h
    cases data with
    | none => simp [create_order] at h
    | some payload =>
      rcases payload with ⟨items?, notes?⟩
      cases items? with
      | none => simp [create_order] at h
      | some items =>
        cases items with
        | nil => simp [create_order] at h
        | cons it rest =>
          simp only [create_order] at h
          cases ht : totalAmount (it :: rest) with
          | error e => rw [ht] at h; simp at h
          | ok total =>
            rw [ht] at h
            cases ha : store.orders.any (fun x => x.order_number == fmtOrderNumber now) with
            | true => rw [ha] at h; simp at h
            | false =>
              rw [ha] at h
              cases emitOk with
              | true => simp at h; rw [← h.2]
              | false => simp at h
  · intro store now emitOk notes it rest ha
    simp only [create_order]
    cases ht : totalAmount (it :: rest) with
    | error e => rfl
    | ok total => rw [ha]; rfl

/-- C6, counterexample. The claim says that when the store mutation
succeeds but the event emission fails, the failure is never propagated and
the operation still reports success.  In the handler `socketio.emit` sits
inside the same `try` after `db.session.commit()`: the commit survives (the
order is in the store) but the exception lands in the `except` block, which
answers the generic 500 error — the caller sees a failure, not success. -/
theorem C6_counterexample :
    create_order ⟨[], 1⟩ T0 false (some goodData) = (S1, .failErr) := by
  decide

/-- C6, amended. Whenever a CreateOrder, UpdateStatus, or DeleteOrder call
would succeed, the same call with a failing event emission leaves the store
in exactly the same mutated state (the commit is not rolled back) but
answers the generic 500 error instead of success; with zero connected
subscribers the emission does not raise, and CreateOrder succeeds and
persists the order. -/
theorem C6_amended :
    (∀ (store : Store) (now : DateTime) (data : Option CreatePayload)
        (store1 : Store) (o : StoredOrder),
      create_order store now true data = (store1, .created o) →
      create_order store now false data = (store1, .failErr)) ∧
    (∀ (store : Store) (now : DateTime) (oid : Nat) (d : Option (Option String))
        (store1 : Store) (o : StoredOrder),
      update_order_status store now true oid d = (store1, .ok o) →
      update_order_status store now false oid d = (store1, .failErr)) ∧
    (∀ (store : Store) (oid : Nat) (store1 : Store),
      delete_order store true oid = (store1, .ok) →
      delete_order store false oid = (store1, .failErr)) ∧
    create_order ⟨[], 1⟩ T0 true (some goodData) = (S1, .created oNew) := by
  refine ⟨?_, ?_, ?_, by decide⟩
  · intro store now data store1 o h
    cases data with
    | none => simp [create_order] at h
    | some payload =>
      rcases payload with ⟨items?, notes?⟩
      cases items? with
      | none => simp [create_order] at h
      | some items =>
        cases items with
        | nil => simp [create_order] at h
        | cons it rest =>
          simp only [create_order] at h ⊢
          cases ht : totalAmount (it :: rest) with
          | error e => rw [ht] at h; simp at h
          | ok total =>
            rw [ht] at h
            cases ha : store.orders.any
                (fun x => x.order_number == fmtOrderNumber now) with
            | true => rw [ha] at h; simp at h
            | false =>
              rw [ha] at h
              simp at h
              simp [h.1]
  · intro store now oid d store1 o h
    cases d with
    | none => simp [update_order_status] at h
    | some statusOpt =>
      cases statusOpt with
      | none => simp [update_order_status] at h
      | some s =>
        simp only [update_order_status] at h ⊢
        by_cases hs : s = ""
        · rw [if_pos hs] at h; simp at h
        · rw [if_neg hs] at h ⊢
          cases hf : store.orders.find? (fun x => x.id == oid) with
          | none => rw [hf] at h; simp at h
          | some o0 =>
            rw [hf] at h
            simp at h
            simp [h.1]
  · intro store oid store1 h
    simp only [delete_order] at h ⊢
    cases hf : store.orders.find? (fun x => x.id == oid) with
    | none => rw [hf] at h; simp at h
    | some o0 =>
      rw [hf] at h
      simp at h
      simp [h]

/-- C2. On an id absent from the store, `update_order_status` and
`delete_order` leave the store unchanged, but the `NotFound` raised by
`get_or_404` is swallowed by the blanket `except Exception`, so the caller
receives the generic 500 failure rather than a 404 `NotFoundError`; the
same holds for an update that follows a successful delete of the id. -/
theorem C2_absent_id_fails_generically :
    (∀ (store : Store) (now : DateTime) (emitOk : Bool) (oid : Nat) (s : String),
      s ≠ "" → store.orders.find? (fun x => x.id == oid) = none →
      update_order_status store now emitOk oid (some (some s)) = (store, .failErr)) ∧
    (∀ (store : Store) (emitOk : Bool) (oid : Nat),
      store.orders.find? (fun x => x.id == oid) = none →
      delete_order store emitOk oid = (store, .failErr)) ∧
    (∀ (store : Store) (now : DateTime) (oid : Nat) (s : String) (o : StoredOrder),
      s ≠ "" → store.orders.find? (fun x => x.id == oid) = some o →
      update_order_status (delete_order store true oid).1 now true oid (some (some s)) =
        ((delete_order store true oid).1, .failErr)) := by
  refine ⟨?_, ?_, ?_⟩
  · intro store now emitOk oid s hs hf
    simp only [update_order_status]
    rw [if_neg hs, hf]
  · intro store emitOk oid hf
    simp only [delete_order]
    rw [hf]
  · intro store now oid s o hs hf
    have hdel : (delete_order store true oid).1 =
        ⟨store.orders.filter (fun x => !(x.id == oid)), store.nextId⟩ := by
      simp only [delete_order]
      rw [hf]
      rfl
    rw [hdel]
    simp only [update_order_status]
    rw [if_neg hs, find?_filter_ne store.orders oid]

/-- C2, witness: a store holding only order 2, probed at id 99, and the
delete-then-update sequence on id 2. -/
theorem C2_witness :
    update_order_status ⟨[oCompleted], 3⟩ T0 true 99 (some (some "completed")) =
      (⟨[oCompleted], 3⟩, .failErr) ∧
    delete_order ⟨[oCompleted], 3⟩ true 99 = (⟨[oCompleted], 3⟩, .failErr) ∧
    update_order_status (delete_order ⟨[oCompleted], 3⟩ true 2).1 T0 true 2
        (some (some "completed")) =
      ((delete_order ⟨[oCompleted], 3⟩ true 2).1, .failErr) :=
  ⟨C2_absent_id_fails_generically.1 ⟨[oCompleted], 3⟩ T0 true 99 "completed"
      (by decide) (by decide),
   C2_absent_id_fails_generically.2.1 ⟨[oCompleted], 3⟩ true 99 (by decide),
   C2_absent_id_fails_generically.2.2 ⟨[oCompleted], 3⟩ T0 2 "completed" oCompleted
      (by decide) (by decide)⟩

/-- C3. With a valid window and a nonempty windowed order list whose
completed members all parse, the analytics counts exactly the completed
orders of the window in `total_orders`, sums exactly their `total_amount`
into `total_revenue`, and builds the item rows from their line items alone;
on the scenario of the spec (one pending order worth 100 and one completed order
worth 50, both dated today) it returns total_orders 1, total_revenue 50. -/
theorem C3_only_completed_counted :
    (∀ (current : DateTime) (orders : List StoredOrder) (df cf : String)
        (w : DateTime × Option DateTime) (stats : Stats),
      resolveWindow current df = some w →
      (orders.filter (inWindow w)).isEmpty = false →
      aggregateItems cf ((orders.filter (inWindow w)).filter isCompleted) [] = .ok stats →
      get_sales_analytics current orders df cf =
        .ok ((orders.filter (inWindow w)).filter isCompleted).length
          (round2 (pySum (((orders.filter (inWindow w)).filter isCompleted).map
            StoredOrder.total_amount)))
          (stats.map (fun e =>
            ⟨e.1.1, e.1.2, e.2.quantity, round2 e.2.total_price, fmtYMD w.1⟩))) ∧
    get_sales_analytics T0 [oPending, oCompleted] "today" "all" =
      .ok 1 50 [⟨"牛肉麵", "main", 1, 50, "2025-01-10"⟩] := by
  refine ⟨?_, by decide⟩
  intro current orders df cf w stats hw hne hagg
  unfold get_sales_analytics
  rw [hw]
  simp only [List.filter_filter] at hagg
  simp [hne, hagg]

/-- The statistics the aggregation builds for the C3 scenario. -/
def statsC3 : Stats := [(("牛肉麵", "main"), ⟨1, 50⟩)]

/-- C3, witness: the general part instantiated on the scenario store. -/
theorem C3_witness :
    get_sales_analytics T0 [oPending, oCompleted] "today" "all" =
      .ok (([oPending, oCompleted].filter
              (inWindow (⟨2025, 1, 10, 0, 0, 0, 0⟩, none))).filter isCompleted).length
        (round2 (pySum ((([oPending, oCompleted].filter
              (inWindow (⟨2025, 1, 10, 0, 0, 0, 0⟩, none))).filter isCompleted).map
          StoredOrder.total_amount)))
        (statsC3.map (fun e =>
          ⟨e.1.1, e.1.2, e.2.quantity, round2 e.2.total_price,
            fmtYMD ⟨2025, 1, 10, 0, 0, 0, 0⟩⟩)) :=
  C3_only_completed_counted.1 T0 [oPending, oCompleted] "today" "all"
    (⟨2025, 1, 10, 0, 0, 0, 0⟩, none) statsC3 (by decide) (by decide) (by decide)

/-- C4. A successful creation from a nonempty all-numeric item list
commits an order whose `total_amount` is the Python-style sum of
price × quantity over the items and whose status is `pending`. -/
theorem C4_created_total_is_sum_and_pending :
    ∀ (store : Store) (now : DateTime) (notes : Option String)
      (first : Q × Q) (rest : List (Q × Q)),
      store.orders.any (fun x => x.order_number == fmtOrderNumber now) = false →
      ∃ o : StoredOrder,
        (create_order store now true (some ⟨some (mkNumItems (first :: rest)), notes⟩)).2 =
          .created o ∧
        o.total_amount = pySum ((first :: rest).map (fun pq => pq.1 * pq.2)) ∧
        o.status = "pending" := by
  intro store now notes first rest ha
  refine ⟨{ id := store.nextId, order_number := fmtOrderNumber now,
            items := .ok (mkNumItems (first :: rest)),
            total_amount := pySum ((first :: rest).map (fun pq => pq.1 * pq.2)),
            status := "pending", notes := notes.getD "",
            created_at := now, updated_at := now }, ?_, rfl, rfl⟩
  have htot : totalAmount (mkNumItems (first :: rest)) =
      .ok (pySum ((first :: rest).map (fun pq => pq.1 * pq.2))) := by
    rw [totalAmount, totalAmountAux_mkNumItems]
    congr 1
    rw [pySum, List.foldl_map]
    rfl
  simp only [mkNumItems] at htot ⊢
  simp only [create_order]
  rw [htot]
  simp [ha]

/-- C4, witness: one item, price 50, quantity 2, on an empty store. -/
theorem C4_witness :
    ∃ o : StoredOrder,
      (create_order ⟨[], 1⟩ T0 true (some ⟨some (mkNumItems ((50, 2) :: [])), none⟩)).2 =
        .created o ∧
      o.total_amount = pySum (((50, 2) :: []).map (fun pq => pq.1 * pq.2)) ∧
      o.status = "pending" :=
  C4_created_total_is_sum_and_pending ⟨[], 1⟩ T0 none (50, 2) [] (by decide)

/-- C5, counterexample. The claim says a malformed stored line-item
payload only yields a recorded `ParseError` detail while the rollup over
the remaining orders is still returned.  With one malformed completed
order next to one intact completed order worth 50, the whole aggregation
aborts with the JSON-parse error dict and no rollup is produced. -/
theorem C5_counterexample :
    get_sales_analytics T0 [oMalformed, oCompleted] "today" "all" =
      .error "JSON 解析錯誤: Expecting value: line 1 column 1 (char 0)"
        (some "Expecting value: line 1 column 1 (char 0)") ∧
    get_sales_analytics T0 [oMalformed, oCompleted] "today" "all" ≠
      .ok 1 50 [⟨"牛肉麵", "main", 1, 50, "2025-01-10"⟩] := by
  refine ⟨by decide, by decide⟩

/-- C5, amended. When any completed order inside a valid nonempty window
has malformed stored line-item JSON, the aggregation aborts the whole
computation and returns the `JSON 解析錯誤` error dict carrying the parse
message, instead of a rollup over the remaining orders. -/
theorem C5_amended (current : DateTime) (orders : List StoredOrder) (df cf : String)
    (w : DateTime × Option DateTime)
    (hw : resolveWindow current df = some w)
    (hne : (orders.filter (inWindow w)).isEmpty = false)
    (hm : ∃ o ∈ (orders.filter (inWindow w)).filter isCompleted,
      o.items.isMalformed = true) :
    ∃ m, get_sales_analytics current orders df cf =
      .error ("JSON 解析錯誤: " ++ m) (some m) := by
  rcases aggregateItems_error_of_malformed cf
    ((orders.filter (inWindow w)).filter isCompleted) [] hm with ⟨m, hagg⟩
  refine ⟨m, ?_⟩
  unfold get_sales_analytics
  rw [hw]
  simp only [List.filter_filter] at hagg
  simp [hne, hagg]

/-- C5, witness: the amended theorem instantiated on the two-order store
with one malformed completed order. -/
theorem C5_witness :
    ∃ m, get_sales_analytics T0 [oMalformed, oCompleted] "today" "all" =
      .error ("JSON 解析錯誤: " ++ m) (some m) :=
  C5_amended T0 [oMalformed, oCompleted] "today" "all"
    (⟨2025, 1, 10, 0, 0, 0, 0⟩, none) (by decide) (by decide) (by decide)

/-- C8, witness: the two amended parts instantiated at `T0`. -/
theorem C8_witness :
    oNew.order_number = fmtOrderNumber T0 ∧
    create_order S1 T0 true
        (some ⟨some (⟨some "牛肉麵", some "main", some (.num 50), some (.num 2)⟩ :: []),
          none⟩) =
      (S1, .failErr) :=
  ⟨C8_amended.1 ⟨[], 1⟩ T0 true (some goodData) S1 oNew (by decide),
   C8_amended.2.1 S1 T0 true none
     ⟨some "牛肉麵", some "main", some (.num 50), some (.num 2)⟩ [] (by decide)⟩

/-- The store holding only the completed order 2. -/
def S2 : Store := ⟨[oCompleted], 3⟩

/-- Order 2 after its status is updated to `preparing` at `T0`. -/
def oPreparing : StoredOrder := { oCompleted with status := "preparing", updated_at := T0 }

/-- C6, witness: each mutation with failing emission keeps the mutated
store and answers the generic failure. -/
theorem C6_witness :
    create_order ⟨[], 1⟩ T0 false (some goodData) = (S1, .failErr) ∧
    update_order_status S2 T0 false 2 (some (some "preparing")) =
      (⟨[oPreparing], 3⟩, .failErr) ∧
    delete_order S2 false 2 = (⟨[], 3⟩, .failErr) :=
  ⟨C6_amended.1 ⟨[], 1⟩ T0 (some goodData) S1 oNew (by decide),
   C6_amended.2.1 S2 T0 2 (some (some "preparing")) ⟨[oPreparing], 3⟩ oPreparing (by decide),
   C6_amended.2.2.1 S2 2 ⟨[], 3⟩ (by decide)⟩

end RestaurantOrders
